import Mathlib

/-!
Verification of the pyhtcc thermostat-portal client (pyhtcc/pyhtcc.py).

This file shallowly embeds the pure decision logic of the client:
JSON-like dictionaries become association lists over a small `Value` type,
HTTP interactions become oracle functions passed as parameters, exceptions
become `Except`-style sum results, and observable side effects (sleeps,
POSTed payloads, requested page numbers) become explicit traces returned
alongside the result.  Each definition is translated from the corresponding
Python function, keeping its name where Lean allows it.
-/

namespace PyHTCC

/-- A JSON-ish value as it appears in the portal payloads: `null`, an
integer, or a string.  `null` models Python's `None`. -/
inductive Value where
  | null
  | int (n : Int)
  | str (s : String)
deriving DecidableEq, Repr

/-- A Python `dict` with string keys, embedded as an association list.
Well-formed dicts have no duplicate keys; lookup returns the first hit. -/
def Dict := List (String × Value)

instance : DecidableEq Dict := by unfold Dict; infer_instance

/-- Lookup `d[k]` as a total function: `some v` when the key is present. -/
def dlookup : Dict → String → Option Value
  | [], _ => none
  | (k, v) :: rest, key => if k = key then some v else dlookup rest key

/-- Assignment `d[k] = v`: overwrite the binding when the key is present, append
otherwise (Python dicts keep insertion order). -/
def dinsert : Dict → String → Value → Dict
  | [], key, v => [(key, v)]
  | (k, w) :: rest, key, v =>
      if k = key then (k, v) :: rest else (k, w) :: dinsert rest key v

/-- Dict merge `{**a, **b}`: bindings of `b` overwrite those of `a`. -/
def dmerge (a b : Dict) : Dict :=
  b.foldl (fun acc kv => dinsert acc kv.1 kv.2) a

/-- Left-biased choice on optional values (`b or-else a`). -/
def oor : Option Value → Option Value → Option Value
  | some v, _ => some v
  | none, o => o

theorem dlookup_dinsert (d : Dict) (k : String) (v : Value) (key : String) :
    dlookup (dinsert d k v) key = if key = k then some v else dlookup d key := by
  induction d with
  | nil =>
    by_cases h : key = k
    · subst h; simp [dinsert, dlookup]
    · simp [dinsert, dlookup, h, Ne.symm h]
  | cons kv rest ih =>
    obtain ⟨k0, w⟩ := kv
    by_cases h0 : k0 = k
    · subst h0
      by_cases h : key = k0
      · subst h; simp [dinsert, dlookup]
      · simp [dinsert, dlookup, h, Ne.symm h]
    · by_cases h : key = k0
      · subst h
        simp [dinsert, dlookup, h0, Ne.symm h0]
      · simp [dinsert, dlookup, h0, h, Ne.symm h, ih]

theorem dlookup_eq_none_of_not_mem (d : Dict) (key : String)
    (h : key ∉ d.map Prod.fst) : dlookup d key = none := by
  induction d with
  | nil => rfl
  | cons kv rest ih =>
    obtain ⟨k0, w⟩ := kv
    simp only [List.map_cons, List.mem_cons] at h
    push_neg at h
    simp [dlookup, Ne.symm h.1, ih h.2]

theorem dlookup_dmerge (b : Dict) (hb : (b.map Prod.fst).Nodup) :
    ∀ (a : Dict) (key : String),
      dlookup (dmerge a b) key = oor (dlookup b key) (dlookup a key) := by
  induction b with
  | nil => intro a key; simp [dmerge, dlookup, oor]
  | cons kv rest ih =>
    intro a key
    obtain ⟨k, v⟩ := kv
    simp only [List.map_cons, List.nodup_cons] at hb
    have step : dmerge a ((k, v) :: rest) = dmerge (dinsert a k v) rest := rfl
    rw [step, ih hb.2 (dinsert a k v) key, dlookup_dinsert]
    by_cases h : key = k
    · subst h
      have : dlookup rest key = none :=
        dlookup_eq_none_of_not_mem rest key hb.1
      simp [dlookup, this, oor]
    · simp [dlookup, h, Ne.symm h]

/-! ## C1: `PyHTCC.authenticate` — retry with exponential backoff

`_do_authenticate` is abstracted as an oracle mapping the attempt index to
its outcome.  The loop body mirrors:

    for i in range(100):
        try: return self._do_authenticate()
        except (TooManyAttemptsError, RedirectDidNotHappenError,
                LoginUnexpectedError):
            time.sleep(2**i)
    raise AuthenticationError(...)

The embedding returns the outcome, the number of attempts made, and the
list of sleep durations in order. -/

/-- Outcome of one `_do_authenticate` call.  `other e` is any exception
outside the three retryable classes (tagged by an arbitrary code). -/
inductive AttemptResult where
  | success
  | tooManyAttempts
  | redirectDidNotHappen
  | loginUnexpected
  | other (e : Nat)
deriving DecidableEq, Repr

/-- The three exception classes caught by `authenticate`'s `except` clause. -/
def isRetryable : AttemptResult → Bool
  | .tooManyAttempts => true
  | .redirectDidNotHappen => true
  | .loginUnexpected => true
  | _ => false

/-- Overall outcome of `authenticate`. -/
inductive AuthOutcome where
  | ok
  | authError
  | otherExc (e : Nat)
deriving DecidableEq, Repr

/-- The `for i in range(100)` loop over an explicit list of attempt
indices; returns (outcome, attempts made, sleeps performed). -/
def authLoop (o : Nat → AttemptResult) : List Nat → AuthOutcome × Nat × List Nat
  | [] => (.authError, 0, [])
  | i :: rest =>
      match o i with
      | .success => (.ok, 1, [])
      | .other e => (.otherExc e, 1, [])
      | .tooManyAttempts | .redirectDidNotHappen | .loginUnexpected =>
          let r := authLoop o rest
          (r.1, r.2.1 + 1, 2 ^ i :: r.2.2)

/-- The method `PyHTCC.authenticate`, with `_do_authenticate` as the oracle `o`. -/
def authenticate (o : Nat → AttemptResult) : AuthOutcome × Nat × List Nat :=
  authLoop o (List.range 100)

theorem authLoop_all_retryable (o : Nat → AttemptResult) :
    ∀ l : List Nat, (∀ i ∈ l, isRetryable (o i)) →
      authLoop o l = (.authError, l.length, l.map (fun i => 2 ^ i)) := by
  intro l
  induction l with
  | nil => intro _; rfl
  | cons i rest ih =>
    intro h
    have hi := h i (List.mem_cons_self i rest)
    have hrest := ih (fun j hj => h j (List.mem_cons_of_mem i hj))
    cases hoi : o i <;> simp [isRetryable, hoi] at hi <;>
      simp [authLoop, hoi, hrest]

/-- The outcome of `authenticate` when the loop body stops at an attempt
whose result is not retryable: a success returns, any other exception
propagates. -/
def stopOutcome : AttemptResult → AuthOutcome
  | .success => .ok
  | .other e => .otherExc e
  | _ => .authError

theorem authLoop_range'_stop (o : Nat → AttemptResult) :
    ∀ (n s : Nat) (k : Nat), s ≤ k → k < s + n →
      (∀ i, s ≤ i → i < k → isRetryable (o i)) → isRetryable (o k) = false →
      authLoop o (List.range' s n) =
        (stopOutcome (o k), k - s + 1,
          (List.range' s (k - s)).map (fun i => 2 ^ i)) := by
  intro n
  induction n with
  | zero => intro s k hsk hkn _ _; omega
  | succ m ih =>
    intro s k hsk hkn h1 h2
    rw [List.range'_succ]
    by_cases hk : k = s
    · subst hk
      cases hos : o k <;> simp [isRetryable, hos] at h2 <;>
        simp [authLoop, hos, stopOutcome]
    · have hsk' : s + 1 ≤ k := by omega
      have hs := h1 s (le_refl s) (by omega)
      have hrest := ih (s + 1) k hsk' (by omega)
        (fun i hi1 hi2 => h1 i (by omega) hi2) h2
      cases hos : o s <;> simp [isRetryable, hos] at hs <;>
        · simp only [authLoop, hos, hrest]
          have hks : k - s = (k - (s + 1)) + 1 := by omega
          rw [hks, List.range'_succ]
          simp

/-- C1: `authenticate()` retries a failed attempt only on
`TooManyAttemptsError`, `RedirectDidNotHappenError` or
`LoginUnexpectedError`, sleeping `2^i` after failed attempt `i`
(0-indexed); when every attempt fails with one of these three errors it
makes exactly 100 attempts and then raises `AuthenticationError`; any
other exception from an attempt (and likewise a success) stops the loop
immediately after attempt `k`, with sleeps performed exactly for attempts
`0..k-1` and none for attempt `k`. -/
theorem authenticate_c1 (o : Nat → AttemptResult) :
    ((∀ i, i < 100 → isRetryable (o i)) →
        authenticate o =
          (.authError, 100, (List.range 100).map (fun i => 2 ^ i)))
    ∧ (∀ k, k < 100 → (∀ i, i < k → isRetryable (o i)) →
        isRetryable (o k) = false →
        authenticate o =
          (stopOutcome (o k), k + 1, (List.range k).map (fun i => 2 ^ i))) := by
  constructor
  · intro h
    exact authLoop_all_retryable o (List.range 100)
      (fun i hi => h i (List.mem_range.mp hi))
  · intro k hk h1 h2
    have := authLoop_range'_stop o 100 0 k (Nat.zero_le k) (by omega)
      (fun i _ hik => h1 i hik) h2
    simpa [authenticate, List.range_eq_range'] using this

/-- Witness for C1: with every attempt failing `TooManyAttemptsError`,
the result is `AuthenticationError` after 100 attempts with sleeps
`2^0, ..., 2^99`; with attempt 0 raising an unrelated exception, it
propagates at once with no sleep. -/
theorem authenticate_c1_witness :
    authenticate (fun _ => AttemptResult.tooManyAttempts) =
        (.authError, 100, (List.range 100).map (fun i => 2 ^ i))
    ∧ authenticate (fun _ => AttemptResult.other 7) =
        (.otherExc 7, 1, []) :=
  ⟨(authenticate_c1 (fun _ => AttemptResult.tooManyAttempts)).1
      (fun _ _ => rfl),
   (authenticate_c1 (fun _ => AttemptResult.other 7)).2 0 (by decide)
      (fun i hi => absurd hi (Nat.not_lt_zero i)) rfl⟩

/-! ## String machinery

Python strings are embedded as `List Char`.  `splitFirst` locates the
first occurrence of a separator, which is the primitive underlying both
`in` (substring test) and `str.split`. -/

/-- Split at the first occurrence of `sep`: `some (before, after)` when
`sep` occurs in `hay`, `none` otherwise. -/
def splitFirst (sep : List Char) : List Char → Option (List Char × List Char)
  | [] => if sep.isEmpty then some ([], []) else none
  | c :: t =>
      if sep.isPrefixOf (c :: t) then some ([], (c :: t).drop sep.length)
      else (splitFirst sep t).map (fun p => (c :: p.1, p.2))

/-- Python's `sep in hay` substring test. -/
def containsSub (sep : List Char) : List Char → Bool
  | [] => sep.isEmpty
  | c :: t => sep.isPrefixOf (c :: t) || containsSub sep t

/-- Python `hay.split(sep)[1]`: the text between the first and second occurrence
of `sep` (to the end when `sep` occurs only once); `none` when `sep` does
not occur at all, in which case Python raises `IndexError`. -/
def pySplitSecond (sep hay : List Char) : Option (List Char) :=
  (splitFirst sep hay).map (fun p =>
    match splitFirst sep p.2 with
    | some q => q.1
    | none => p.2)

/-- Python `hay.split(sep)[0]` (equally `hay.split(sep, 1)[0]`): the text before
the first occurrence of `sep`, or all of `hay` when `sep` is absent. -/
def pySplitHead (sep hay : List Char) : List Char :=
  match splitFirst sep hay with
  | some p => p.1
  | none => hay

/-- Python `str.strip()` restricted to ASCII whitespace. -/
def pyStrip (s : List Char) : List Char :=
  ((s.dropWhile Char.isWhitespace).reverse.dropWhile Char.isWhitespace).reverse

theorem containsSub_eq_isSome (sep : List Char) :
    ∀ hay : List Char, containsSub sep hay = (splitFirst sep hay).isSome := by
  intro hay
  induction hay with
  | nil => cases sep <;> rfl
  | cons c t ih =>
    by_cases h : sep.isPrefixOf (c :: t) <;>
      simp [containsSub, splitFirst, h, ih]

theorem splitFirst_eq_none_of_not_contains (sep hay : List Char)
    (h : containsSub sep hay = false) : splitFirst sep hay = none := by
  rw [containsSub_eq_isSome] at h
  exact Option.not_isSome_iff_eq_none.mp (by simp [h])

theorem isPrefixOf_append_self (sep post : List Char) :
    sep.isPrefixOf (sep ++ post) = true := by
  induction sep with
  | nil => simp [List.isPrefixOf]
  | cons c t ih => simp [List.isPrefixOf, ih]

theorem splitFirst_sep_append (sep post : List Char) (hsep : sep ≠ []) :
    splitFirst sep (sep ++ post) = some ([], post) := by
  cases sep with
  | nil => exact absurd rfl hsep
  | cons a b =>
    have : (a :: b) ++ post = a :: (b ++ post) := rfl
    rw [this]
    have hpre : (a :: b).isPrefixOf (a :: (b ++ post)) = true :=
      isPrefixOf_append_self (a :: b) post
    simp only [splitFirst, hpre, if_pos]
    have : (a :: (b ++ post)).drop (a :: b).length = post := by
      have h := List.drop_left (a :: b) post
      rwa [List.cons_append] at h
    rw [this]

theorem splitFirst_append_left (sep : List Char) :
    ∀ (pre rest : List Char),
      (∀ i, i < pre.length → sep.isPrefixOf ((pre ++ rest).drop i) = false) →
      splitFirst sep (pre ++ rest) =
        (splitFirst sep rest).map (fun p => (pre ++ p.1, p.2)) := by
  intro pre
  induction pre with
  | nil =>
    intro rest _
    cases h : splitFirst sep rest <;> simp [h]
  | cons c t ih =>
    intro rest h
    have h0 : sep.isPrefixOf (c :: (t ++ rest)) = false := by
      have := h 0 (by simp)
      simpa using this
    have hrec := ih rest (fun i hi => by
      have := h (i + 1) (by simpa using Nat.succ_lt_succ hi)
      simpa using this)
    have : (c :: t) ++ rest = c :: (t ++ rest) := rfl
    rw [this]
    simp only [splitFirst, h0, Bool.false_eq_true, if_false, hrec]
    cases hs : splitFirst sep rest <;> simp

/-! ## Python `int()` parsing (ASCII digits) -/

/-- Numeric value of a digit list read in base 10 (underscores assumed
already absent). -/
def digitsToNat (ds : List Char) : Nat :=
  ds.foldl (fun a c => a * 10 + (c.toNat - 48)) 0

/-- The tail of a digit run after its leading digit: digits, with single
underscores allowed only between digits (Python's literal rule). -/
def parseUDigits (acc : Nat) : List Char → Option Nat
  | [] => some acc
  | c :: t =>
      if c.isDigit then parseUDigits (acc * 10 + (c.toNat - 48)) t
      else if c = '_' then
        match t with
        | [] => none
        | c2 :: t2 =>
            if c2.isDigit then parseUDigits (acc * 10 + (c2.toNat - 48)) t2
            else none
      else none

/-- A digit run after the optional sign: must start with a digit. -/
def parseNatBody : List Char → Option Nat
  | [] => none
  | c :: t => if c.isDigit then parseUDigits (c.toNat - 48) t else none

/-- Python `int(s)` on an ASCII string: optional surrounding whitespace,
optional sign, base-10 digits with single underscores between digits.
`none` models `ValueError`. -/
def pyParseInt (s : List Char) : Option Int :=
  match pyStrip s with
  | [] => none
  | c :: t =>
      if c = '+' then (parseNatBody t).map (fun n => (n : Int))
      else if c = '-' then (parseNatBody t).map (fun n => -(n : Int))
      else (parseNatBody (c :: t)).map (fun n => (n : Int))

theorem ne_of_isDigit_of_not (c x : Char) (h : c.isDigit = true)
    (hx : x.isDigit = false) : c ≠ x := by
  intro he
  subst he
  rw [h] at hx
  cases hx

theorem isWhitespace_eq_false_of_isDigit (c : Char) (h : c.isDigit = true) :
    c.isWhitespace = false := by
  cases hw : c.isWhitespace
  · rfl
  · exfalso
    simp only [Char.isWhitespace, Bool.or_eq_true, decide_eq_true_eq] at hw
    rcases hw with ((h1 | h1) | h1) | h1 <;> subst h1 <;> exact absurd h (by decide)

theorem dropWhile_eq_self_of_all_false {p : Char → Bool} {l : List Char}
    (h : ∀ c ∈ l, p c = false) : l.dropWhile p = l := by
  cases l with
  | nil => rfl
  | cons c t =>
    rw [List.dropWhile_cons]
    simp [h c (List.mem_cons_self c t)]

theorem pyStrip_of_no_whitespace (l : List Char)
    (h : ∀ c ∈ l, c.isWhitespace = false) : pyStrip l = l := by
  unfold pyStrip
  rw [dropWhile_eq_self_of_all_false h,
      dropWhile_eq_self_of_all_false (fun c hc => h c (List.mem_reverse.mp hc)),
      List.reverse_reverse]

theorem parseUDigits_all_digits (ds : List Char) (hds : ∀ c ∈ ds, c.isDigit = true) :
    ∀ acc, parseUDigits acc ds = some (ds.foldl (fun a c => a * 10 + (c.toNat - 48)) acc) := by
  induction ds with
  | nil => intro acc; rfl
  | cons c t ih =>
    intro acc
    have hc := hds c (List.mem_cons_self c t)
    rw [parseUDigits.eq_def]
    simp only [hc, if_true, List.foldl_cons]
    exact ih (fun x hx => hds x (List.mem_cons_of_mem c hx)) _

theorem pyParseInt_all_digits (ds : List Char) (hne : ds ≠ [])
    (hds : ∀ c ∈ ds, c.isDigit = true) :
    pyParseInt ds = some ((digitsToNat ds : Nat) : Int) := by
  have hstrip : pyStrip ds = ds :=
    pyStrip_of_no_whitespace ds
      (fun c hc => isWhitespace_eq_false_of_isDigit c (hds c hc))
  cases ds with
  | nil => exact absurd rfl hne
  | cons c t =>
    have hc := hds c (List.mem_cons_self c t)
    have hplus : c ≠ '+' := ne_of_isDigit_of_not c '+' hc (by decide)
    have hminus : c ≠ '-' := ne_of_isDigit_of_not c '-' hc (by decide)
    rw [pyParseInt, hstrip]
    simp only [hplus, hminus, if_false, parseNatBody, hc, if_pos]
    rw [parseUDigits_all_digits t (fun x hx => hds x (List.mem_cons_of_mem c hx))]
    simp [digitsToNat]

/-! ## `_set_location_id_from_result` (C6) and `_do_authenticate` (C5) -/

/-- The post-login path marker. -/
def portalSeg : List Char := "portal/".toList

/-- A single slash, the path-segment separator. -/
def slashSep : List Char := "/".toList

/-- Python `re.findall(r"locationId=(\d+)", text)[0]`: the digits of the first
occurrence of `locationId=` followed by at least one digit, scanning left
to right; `none` when the pattern never matches (Python `IndexError`). -/
def findLocationId : List Char → Option Nat
  | [] => none
  | c :: t =>
      if ("locationId=".toList).isPrefixOf (c :: t) then
        let after := (c :: t).drop ("locationId=".toList).length
        let ds := after.takeWhile Char.isDigit
        if ds.isEmpty then findLocationId t else some (digitsToNat ds)
      else findLocationId t

/-- Python `result.url.split("portal/")[1].split("/")[0]`: the URL path segment
immediately following the first `portal/` (truncated at a second
`portal/`, as Python's `split` does); `none` when `portal/` is absent
(Python `IndexError`). -/
def locSegment (url : List Char) : Option (List Char) :=
  (pySplitSecond portalSeg url).map (pySplitHead slashSep)

/-- The method `PyHTCC._set_location_id_from_result`, abstracted over the response's
`url` and body `text`.  `.error` models an uncaught `IndexError`; the
`ValueError` of a non-integer path segment is caught and triggers the
`locationId=` fallback scan of the body. -/
def set_location_id_from_result (url text : List Char) : Except String Int :=
  match locSegment url with
  | none => .error "IndexError"
  | some seg =>
      match pyParseInt seg with
      | some n => .ok n
      | none =>
          match findLocationId text with
          | some d => .ok ((d : Nat) : Int)
          | none => .error "IndexError"

theorem isPrefixOf_cons_eq_false_of_head_ne (s0 c : Char) (ss t : List Char)
    (h : s0 ≠ c) : (s0 :: ss).isPrefixOf (c :: t) = false := by
  have : (s0 :: ss).isPrefixOf (c :: t) = (s0 == c && ss.isPrefixOf t) := rfl
  rw [this]
  simp [h]

theorem no_slash_in_digits (ds rest : List Char)
    (hds : ∀ c ∈ ds, c.isDigit = true) :
    ∀ i, i < ds.length →
      slashSep.isPrefixOf ((ds ++ ('/' :: rest)).drop i) = false := by
  intro i hi
  rw [List.drop_append_of_le_length (Nat.le_of_lt hi),
      List.drop_eq_getElem_cons hi]
  have hmem : ds[i] ∈ ds := List.getElem_mem hi
  have hdig := hds _ hmem
  exact isPrefixOf_cons_eq_false_of_head_ne '/' ds[i] [] _
    (Ne.symm (ne_of_isDigit_of_not ds[i] '/' hdig (by decide)))

theorem pySplitHead_digits_slash (ds rest : List Char)
    (hds : ∀ c ∈ ds, c.isDigit = true) :
    pySplitHead slashSep (ds ++ ('/' :: rest)) = ds := by
  have h1 : splitFirst slashSep ('/' :: rest) = some ([], rest) :=
    splitFirst_sep_append slashSep rest (by decide)
  have h2 := splitFirst_append_left slashSep ds ('/' :: rest)
    (no_slash_in_digits ds rest hds)
  rw [pySplitHead, h2, h1]
  simp

/-- C6 key lemma: on a URL of the shape
`pre ++ "portal/" ++ digits ++ "/" ++ rest` whose first `portal/` is the
displayed one and with no later `portal/`, the stored location id is the
integer spelled by `digits`, read from the URL alone. -/
theorem set_location_id_of_digit_segment (pre ds rest text : List Char)
    (hpre : ∀ i, i < pre.length →
      portalSeg.isPrefixOf
        ((pre ++ (portalSeg ++ (ds ++ ('/' :: rest)))).drop i) = false)
    (hne : ds ≠ []) (hds : ∀ c ∈ ds, c.isDigit = true)
    (hno2 : containsSub portalSeg (ds ++ ('/' :: rest)) = false) :
    set_location_id_from_result (pre ++ (portalSeg ++ (ds ++ ('/' :: rest)))) text
      = .ok ((digitsToNat ds : Nat) : Int) := by
  have h0 : splitFirst portalSeg (portalSeg ++ (ds ++ ('/' :: rest)))
      = some ([], ds ++ ('/' :: rest)) :=
    splitFirst_sep_append portalSeg (ds ++ ('/' :: rest)) (by decide)
  have h1 : splitFirst portalSeg (pre ++ (portalSeg ++ (ds ++ ('/' :: rest))))
      = some (pre, ds ++ ('/' :: rest)) := by
    rw [splitFirst_append_left portalSeg pre (portalSeg ++ (ds ++ ('/' :: rest))) hpre, h0]
    simp
  have h2 : splitFirst portalSeg (ds ++ ('/' :: rest)) = none :=
    splitFirst_eq_none_of_not_contains portalSeg (ds ++ ('/' :: rest)) hno2
  have hseg : locSegment (pre ++ (portalSeg ++ (ds ++ ('/' :: rest))))
      = some ds := by
    rw [locSegment, pySplitSecond, h1]
    simp [h2, pySplitHead_digits_slash ds rest hds]
  rw [set_location_id_from_result, hseg]
  simp [pyParseInt_all_digits ds hne hds]

/-! ## C5: `_do_authenticate` — classification of the login response -/

/-- The two credentials-rejected phrases checked in the response body. -/
def credRejected (text : List Char) : Bool :=
  containsSub ("The email or password provided is incorrect".toList) text ||
  containsSub ("The email address is not in the correct format".toList) text

/-- Marker of the rate-limiting redirect. -/
def tooManyMarker : List Char := "TooManyAttempts".toList

/-- Marker of the portal-side error redirect. -/
def errorSeg : List Char := "/Error".toList

/-- A login response: HTTP status, body text, and post-redirect URL. -/
structure LoginResponse where
  status_code : Nat
  text : List Char
  url : List Char

/-- Result of one `_do_authenticate` call: the raised exception, or
success carrying the stored `_locationId`.  `indexError` is the uncaught
exception of a failed location-id extraction. -/
inductive DoAuthResult where
  | authError
  | loginCredentialsInvalid
  | tooManyAttempts
  | redirectDidNotHappen
  | loginUnexpected
  | indexError
  | okLoc (locationId : Int)
deriving DecidableEq, Repr

/-- The method `PyHTCC._do_authenticate`, with the portal's response to the
credentials POST as input. -/
def do_authenticate (r : LoginResponse) : DoAuthResult :=
  if r.status_code ≠ 200 then .authError
  else if credRejected r.text then .loginCredentialsInvalid
  else if containsSub tooManyMarker r.url then .tooManyAttempts
  else if !(containsSub portalSeg r.url) then .redirectDidNotHappen
  else if containsSub errorSeg r.url then .loginUnexpected
  else
    match set_location_id_from_result r.url r.text with
    | .ok n => .okLoc n
    | .error _ => .indexError

/-- C5: `_do_authenticate` classifies the response in a fixed order:
non-200 status raises `AuthenticationError`; else a credentials-rejected
phrase in the body raises `LoginCredentialsInvalidError`; else a
`TooManyAttempts` marker in the URL raises `TooManyAttemptsError`; else a
URL lacking `portal/` raises `RedirectDidNotHappenError`; else a URL
containing `/Error` raises `LoginUnexpectedError`; otherwise the attempt
succeeds, storing the extracted `LocationID`. -/
theorem do_authenticate_c5 (r : LoginResponse) :
    (r.status_code ≠ 200 → do_authenticate r = .authError)
    ∧ (r.status_code = 200 → credRejected r.text = true →
        do_authenticate r = .loginCredentialsInvalid)
    ∧ (r.status_code = 200 → credRejected r.text = false →
        containsSub tooManyMarker r.url = true →
        do_authenticate r = .tooManyAttempts)
    ∧ (r.status_code = 200 → credRejected r.text = false →
        containsSub tooManyMarker r.url = false →
        containsSub portalSeg r.url = false →
        do_authenticate r = .redirectDidNotHappen)
    ∧ (r.status_code = 200 → credRejected r.text = false →
        containsSub tooManyMarker r.url = false →
        containsSub portalSeg r.url = true →
        containsSub errorSeg r.url = true →
        do_authenticate r = .loginUnexpected)
    ∧ (r.status_code = 200 → credRejected r.text = false →
        containsSub tooManyMarker r.url = false →
        containsSub portalSeg r.url = true →
        containsSub errorSeg r.url = false →
        ∀ n, set_location_id_from_result r.url r.text = .ok n →
          do_authenticate r = .okLoc n) := by
  refine ⟨?_, ?_, ?_, ?_, ?_, ?_⟩
  · intro h; simp [do_authenticate, h]
  · intro h1 h2; simp [do_authenticate, h1, h2]
  · intro h1 h2 h3; simp [do_authenticate, h1, h2, h3]
  · intro h1 h2 h3 h4; simp [do_authenticate, h1, h2, h3, h4]
  · intro h1 h2 h3 h4 h5; simp [do_authenticate, h1, h2, h3, h4, h5]
  · intro h1 h2 h3 h4 h5 n h6; simp [do_authenticate, h1, h2, h3, h4, h5, h6]

/-- Witness for C5: a 200 response redirected to `.../portal/123/Home`
with a clean body authenticates and stores location id 123. -/
theorem do_authenticate_c5_witness :
    do_authenticate ⟨200, [], "https://site/portal/123/Home".toList⟩
      = .okLoc 123 :=
  (do_authenticate_c5 ⟨200, [], "https://site/portal/123/Home".toList⟩).2.2.2.2.2
    rfl rfl (by decide) (by decide) (by decide) 123 rfl

/-- C6: the stored `LocationID` is the integer parsed from the URL path
segment immediately following `portal/`; when that segment is not an
integer, it is the first `locationId=<digits>` match in the body; when
neither yields an integer, the extraction raises. -/
theorem set_location_id_c6 :
    (∀ pre ds rest text : List Char,
      (∀ i, i < pre.length →
        portalSeg.isPrefixOf
          ((pre ++ (portalSeg ++ (ds ++ ('/' :: rest)))).drop i) = false) →
      ds ≠ [] → (∀ c ∈ ds, c.isDigit = true) →
      containsSub portalSeg (ds ++ ('/' :: rest)) = false →
      set_location_id_from_result (pre ++ (portalSeg ++ (ds ++ ('/' :: rest)))) text
        = .ok ((digitsToNat ds : Nat) : Int))
    ∧ (∀ url text seg : List Char, ∀ d : Nat,
        locSegment url = some seg → pyParseInt seg = none →
        findLocationId text = some d →
        set_location_id_from_result url text = .ok ((d : Nat) : Int))
    ∧ (∀ url text seg : List Char,
        locSegment url = some seg → pyParseInt seg = none →
        findLocationId text = none →
        set_location_id_from_result url text = .error "IndexError") := by
  refine ⟨set_location_id_of_digit_segment, ?_, ?_⟩
  · intro url text seg d h1 h2 h3
    rw [set_location_id_from_result, h1]
    simp [h2, h3]
  · intro url text seg h1 h2 h3
    rw [set_location_id_from_result, h1]
    simp [h2, h3]

/-- Witness for C6: URL `https://x.com/portal/12345/Zones` yields 12345;
a URL with a non-numeric segment falls back to the body's
`locationId=777`, and with an empty body the extraction raises. -/
theorem set_location_id_c6_witness :
    set_location_id_from_result
        ("https://x.com/".toList ++ (portalSeg ++ ("12345".toList ++ ('/' :: "Zones".toList))))
        [] = .ok 12345
    ∧ set_location_id_from_result "https://x.com/portal/Device/Control".toList
        "var locationId=777;".toList = .ok 777
    ∧ set_location_id_from_result "https://x.com/portal/Device/Control".toList
        [] = .error "IndexError" :=
  ⟨set_location_id_c6.1 "https://x.com/".toList "12345".toList "Zones".toList []
      (by decide) (by decide) (by decide) (by decide),
   set_location_id_c6.2.1 "https://x.com/portal/Device/Control".toList
      "var locationId=777;".toList "Device".toList 777 (by decide) (by decide) (by decide),
   set_location_id_c6.2.2 "https://x.com/portal/Device/Control".toList
      [] "Device".toList (by decide) (by decide) (by decide)⟩

/-! ## C3: `Zone._coerce_temp_end_to_setpoint`

The `end` argument is a `datetime.time`, a `datetime.timedelta`, `None`,
or a value of any other type.  A `timedelta` is kept in Python's
normalized form (`0 ≤ seconds < 86400`, `0 ≤ micro < 10^6`, any sign on
`days`).  `datetime.now()` enters only through its time of day, carried
as (seconds into the day, microseconds). -/

/-- The `end` argument of `_coerce_temp_end_to_setpoint`. -/
inductive TempEnd where
  | time (hour minute : Nat)
  | delta (days : Int) (seconds micro : Nat)
  | noneEnd
  | otherType
deriving DecidableEq, Repr

/-- Python `round(m / 15)` for an integer minute `0 ≤ m`: the nearest
integer to `m/15`.  Exact halves (banker's rounding) cannot arise since
`m/15 = k + 1/2` has no integer solution, and the float quotient of small
integers never crosses a rounding boundary. -/
def roundDiv15 (m : Nat) : Nat := (2 * m + 15) / 30

/-- Python `int((end.hour * 4) + round(end.minute / 15))`. -/
def timeSlot (hour minute : Nat) : Int := ((hour * 4 + roundDiv15 minute : Nat) : Int)

/-- Microseconds into the day of `datetime.datetime.now() + end` for a
`timedelta` `end`: exact integer arithmetic, wrapped modulo one day. -/
def deltaEndUs (now : Nat × Nat) (d : Int) (s us : Nat) : Nat :=
  ((((now.1 * 1000000 + now.2 : Nat) : Int)
      + ((d * 86400 + (s : Int)) * 1000000 + (us : Int))) % 86400000000).toNat

/-- The method `Zone._coerce_temp_end_to_setpoint`.  `now` is the time of day of
`datetime.datetime.now()` as (seconds, microseconds).  `.error` models a
raised `ValueError`; `.ok none` is the portal default.  The `delta`
branch mirrors the Python recursion: it converts the end's time of day
through the `time` formula. -/
def coerce_temp_end_to_setpoint (now : Nat × Nat) : TempEnd → Except String (Option Int)
  | .time h m => .ok (some (timeSlot h m))
  | .delta d s us =>
      if 0 < d then .error "The timedelta must be less than a day"
      else
        .ok (some (timeSlot (deltaEndUs now d s us / 3600000000)
                            (deltaEndUs now d s us % 3600000000 / 60000000)))
  | .noneEnd => .ok none
  | .otherType => .error "end must be either a datetime.time or datetime.timedelta"

/-- C3: the time-slot coercion maps a time of day to
`hour*4 + round(minute/15)` (so 00:00→0, 00:15→1, 01:00→4, 01:16→5,
01:41→7, 23:59→96); a normalized duration of one day or more (and only
such a duration) raises `ValueError`; a shorter duration maps to the time
of day of `now + duration` converted the same way, wrapping past midnight
(now 01:00, duration 23:59 → 4); `None` maps to `None`; any other input
type raises `ValueError`. -/
theorem coerce_temp_end_c3 (now : Nat × Nat) :
    (∀ h m, coerce_temp_end_to_setpoint now (.time h m) = .ok (some (timeSlot h m)))
    ∧ (coerce_temp_end_to_setpoint now (.time 0 0) = .ok (some 0)
        ∧ coerce_temp_end_to_setpoint now (.time 0 15) = .ok (some 1)
        ∧ coerce_temp_end_to_setpoint now (.time 1 0) = .ok (some 4)
        ∧ coerce_temp_end_to_setpoint now (.time 1 16) = .ok (some 5)
        ∧ coerce_temp_end_to_setpoint now (.time 1 41) = .ok (some 7)
        ∧ coerce_temp_end_to_setpoint now (.time 23 59) = .ok (some 96))
    ∧ (∀ (d : Int) (s us : Nat), s < 86400 → us < 1000000 →
        ((86400000000 : Int) ≤ (d * 86400 + (s : Int)) * 1000000 + (us : Int) ↔
          coerce_temp_end_to_setpoint now (.delta d s us)
            = .error "The timedelta must be less than a day"))
    ∧ (∀ (d : Int) (s us : Nat), d ≤ 0 →
        coerce_temp_end_to_setpoint now (.delta d s us) =
          coerce_temp_end_to_setpoint now
            (.time (deltaEndUs now d s us / 3600000000)
                   (deltaEndUs now d s us % 3600000000 / 60000000)))
    ∧ coerce_temp_end_to_setpoint now .noneEnd = .ok none
    ∧ coerce_temp_end_to_setpoint now .otherType
        = .error "end must be either a datetime.time or datetime.timedelta" := by
  refine ⟨fun h m => rfl, ⟨rfl, rfl, rfl, rfl, rfl, rfl⟩, ?_, ?_, rfl, rfl⟩
  · intro d s us hs hus
    have hexp : (d * 86400 + (s : Int)) * 1000000 + (us : Int)
        = d * 86400000000 + (s : Int) * 1000000 + (us : Int) := by ring
    by_cases hd : 0 < d
    · simp only [coerce_temp_end_to_setpoint, hd, if_true]
      constructor
      · intro _; trivial
      · intro _
        rw [hexp]
        have hs' : (0 : Int) ≤ (s : Int) := Int.natCast_nonneg s
        have hus' : (0 : Int) ≤ (us : Int) := Int.natCast_nonneg us
        nlinarith
    · simp only [coerce_temp_end_to_setpoint, hd, if_false]
      constructor
      · intro habs
        exfalso
        rw [hexp] at habs
        have hd' : d ≤ 0 := by omega
        have hs2 : (s : Int) < 86400 := by exact_mod_cast hs
        have hus2 : (us : Int) < 1000000 := by exact_mod_cast hus
        nlinarith
      · intro habs; simp at habs
  · intro d s us hd
    have hnd : ¬ 0 < d := by omega
    simp only [coerce_temp_end_to_setpoint, hnd, if_false]

/-- Witness for C3: at now = 01:00, a duration of 23:59 wraps past
midnight to slot 4; a duration of exactly one normalized day raises. -/
theorem coerce_temp_end_c3_witness :
    coerce_temp_end_to_setpoint (3600, 0) (.delta 0 86340 0) = .ok (some 4)
    ∧ coerce_temp_end_to_setpoint (3600, 0) (.delta 1 0 0)
        = .error "The timedelta must be less than a day"
    ∧ coerce_temp_end_to_setpoint (3600, 0) (.time 1 16) = .ok (some 5) := by
  refine ⟨?_, ?_, ?_⟩
  · have h := ((coerce_temp_end_c3 (3600, 0)).2.2.2.1) 0 86340 0 (by decide)
    rw [h]
    rfl
  · have h := ((coerce_temp_end_c3 (3600, 0)).2.2.1) 1 0 0 (by decide) (by decide)
    exact h.mp (by norm_num)
  · exact ((coerce_temp_end_c3 (3600, 0)).2.1).2.2.2.1

/-! ## C4 / C8: `PyHTCC.get_zones_info`

`_post_zone_list_data` becomes the oracle `pages` (`none` models the
`UnexpectedError → None` path); Python's falsy test `not data` also
treats an empty list as empty.  The per-device fetches
`_get_name_for_device_id`, `_get_check_data_session` and
`_get_outdoor_weather_info_for_zone` become oracles keyed by the
`DeviceID` value.  The embedding returns the result together with the
list of page numbers actually requested. -/

/-- Python's `not data` on the result of `_post_zone_list_data`. -/
def isFalsy : Option (List Dict) → Bool
  | none => true
  | some [] => true
  | some (_ :: _) => false

/-- The `for page_num in range(1, 6)` accumulation loop, over an explicit
list of page numbers; returns the accumulated entries (or the
no-zones error) and the pages requested. -/
def zonesPagesLoop (pages : Nat → Option (List Dict)) :
    List Nat → Except String (List Dict) × List Nat
  | [] => (.ok [], [])
  | p :: rest =>
      let data := pages p
      if isFalsy data then
        if p = 1 then (.error "NoZonesFoundError", [p])
        else (.ok [], [p])
      else
        let r := zonesPagesLoop pages rest
        (r.1.map (fun zs => data.getD [] ++ zs), p :: r.2)

/-- Python `zone["Name"] = name` followed by
`{**zone, **more_data, **weather}` for one accumulated entry; `none`
models the `KeyError` of a zone-list entry with no `DeviceID`. -/
def enrich (nameOf : Value → Value) (checkOf weatherOf : Value → Dict)
    (zone : Dict) : Option Dict :=
  match dlookup zone "DeviceID" with
  | none => none
  | some did =>
      some (dmerge (dmerge (dinsert zone "Name" (nameOf did)) (checkOf did))
        (weatherOf did))

/-- The method `PyHTCC.get_zones_info`: paginate pages 1–5, then merge per-device
data onto every accumulated entry. -/
def get_zones_info (pages : Nat → Option (List Dict))
    (nameOf : Value → Value) (checkOf weatherOf : Value → Dict) :
    Except String (List Dict) × List Nat :=
  match zonesPagesLoop pages [1, 2, 3, 4, 5] with
  | (.error e, reqs) => (.error e, reqs)
  | (.ok zs, reqs) =>
      match zs.mapM (enrich nameOf checkOf weatherOf) with
      | some enriched => (.ok enriched, reqs)
      | none => (.error "KeyError", reqs)

theorem zonesPagesLoop_all_nonfalsy (pages : Nat → Option (List Dict)) :
    ∀ l : List Nat, (∀ p ∈ l, isFalsy (pages p) = false) →
      zonesPagesLoop pages l =
        (.ok ((l.map (fun p => (pages p).getD [])).flatten), l) := by
  intro l
  induction l with
  | nil => intro _; rfl
  | cons p rest ih =>
    intro h
    have hp := h p (List.mem_cons_self p rest)
    have hrest := ih (fun q hq => h q (List.mem_cons_of_mem p hq))
    simp [zonesPagesLoop, hp, hrest, Except.map]

theorem zonesPagesLoop_stop (pages : Nat → Option (List Dict)) :
    ∀ (l1 : List Nat) (k : Nat) (l2 : List Nat),
      (∀ p ∈ l1, isFalsy (pages p) = false) →
      isFalsy (pages k) = true → k ≠ 1 →
      zonesPagesLoop pages (l1 ++ k :: l2) =
        (.ok ((l1.map (fun p => (pages p).getD [])).flatten), l1 ++ [k]) := by
  intro l1
  induction l1 with
  | nil =>
    intro k l2 _ hk hk1
    simp [zonesPagesLoop, hk, hk1]
  | cons p rest ih =>
    intro k l2 h hk hk1
    have hp := h p (List.mem_cons_self p rest)
    have hrest := ih k l2 (fun q hq => h q (List.mem_cons_of_mem p hq)) hk hk1
    simp [zonesPagesLoop, hp, hrest, Except.map]

theorem zonesPagesLoop_page1_empty (pages : Nat → Option (List Dict))
    (rest : List Nat) (h : isFalsy (pages 1) = true) :
    zonesPagesLoop pages (1 :: rest) = (.error "NoZonesFoundError", [1]) := by
  simp [zonesPagesLoop, h]

/-- Helper: closing `get_zones_info` from a successful pagination result
and a successful merge. -/
theorem get_zones_info_ok_of (pages : Nat → Option (List Dict))
    (nameOf : Value → Value) (checkOf weatherOf : Value → Dict)
    (zs : List Dict) (reqs : List Nat)
    (h : zonesPagesLoop pages [1, 2, 3, 4, 5] = (.ok zs, reqs))
    (merged : List Dict)
    (hm : zs.mapM (enrich nameOf checkOf weatherOf) = some merged) :
    get_zones_info pages nameOf checkOf weatherOf = (.ok merged, reqs) := by
  rw [get_zones_info, h]
  simp only [hm]

/-- C4: `get_zones_info()` requests pages 1–5 in order; an empty page 1
raises `NoZonesFoundError`; an empty later page `k` stops the iteration
without error, requesting exactly pages `1..k` (none after the empty one)
and returning the merged entries accumulated from pages `1..k-1`; when no
page is empty, all five pages are requested and merged. -/
theorem get_zones_info_c4 (pages : Nat → Option (List Dict))
    (nameOf : Value → Value) (checkOf weatherOf : Value → Dict) :
    (isFalsy (pages 1) = true →
      get_zones_info pages nameOf checkOf weatherOf
        = (.error "NoZonesFoundError", [1]))
    ∧ (∀ k, 2 ≤ k → k ≤ 5 →
        (∀ p, 1 ≤ p → p < k → isFalsy (pages p) = false) →
        isFalsy (pages k) = true →
        ∀ merged,
          ((List.range' 1 (k - 1)).map (fun p => (pages p).getD [])).flatten.mapM
              (enrich nameOf checkOf weatherOf) = some merged →
          get_zones_info pages nameOf checkOf weatherOf
            = (.ok merged, List.range' 1 k))
    ∧ ((∀ p, 1 ≤ p → p ≤ 5 → isFalsy (pages p) = false) →
        ∀ merged,
          (([1, 2, 3, 4, 5].map (fun p => (pages p).getD [])).flatten).mapM
              (enrich nameOf checkOf weatherOf) = some merged →
          get_zones_info pages nameOf checkOf weatherOf
            = (.ok merged, [1, 2, 3, 4, 5])) := by
  refine ⟨?_, ?_, ?_⟩
  · intro h
    rw [get_zones_info, zonesPagesLoop_page1_empty pages _ h]
  · intro k h2 h5 hbefore hk merged hm
    interval_cases k
    · exact get_zones_info_ok_of pages nameOf checkOf weatherOf _ _
        (zonesPagesLoop_stop pages [1] 2 [3, 4, 5]
          (by intro p hp; simp at hp; subst hp; exact hbefore 1 (by omega) (by omega))
          hk (by omega)) merged hm
    · exact get_zones_info_ok_of pages nameOf checkOf weatherOf _ _
        (zonesPagesLoop_stop pages [1, 2] 3 [4, 5]
          (by intro p hp; simp at hp; rcases hp with h | h <;> subst h <;>
                exact hbefore _ (by omega) (by omega))
          hk (by omega)) merged hm
    · exact get_zones_info_ok_of pages nameOf checkOf weatherOf _ _
        (zonesPagesLoop_stop pages [1, 2, 3] 4 [5]
          (by intro p hp; simp at hp; rcases hp with h | h | h <;> subst h <;>
                exact hbefore _ (by omega) (by omega))
          hk (by omega)) merged hm
    · exact get_zones_info_ok_of pages nameOf checkOf weatherOf _ _
        (zonesPagesLoop_stop pages [1, 2, 3, 4] 5 []
          (by intro p hp; simp at hp; rcases hp with h | h | h | h <;> subst h <;>
                exact hbefore _ (by omega) (by omega))
          hk (by omega)) merged hm
  · intro h merged hm
    exact get_zones_info_ok_of pages nameOf checkOf weatherOf _ _
      (zonesPagesLoop_all_nonfalsy pages [1, 2, 3, 4, 5]
        (by intro p hp; simp at hp; rcases hp with h1 | h1 | h1 | h1 | h1 <;> subst h1 <;>
              exact h _ (by omega) (by omega))) merged hm

/-- Witness for C4: with one device on page 1 and page 2 empty, pages 1
and 2 are requested (3–5 are not) and the single merged record is
returned; with page 1 empty, `NoZonesFoundError` is raised. -/
theorem get_zones_info_c4_witness :
    get_zones_info
        (fun p => if p = 1 then some [[("DeviceID", Value.int 11)]] else none)
        (fun _ => .str "Upstairs")
        (fun _ => [("HeatSetpoint", Value.int 70)])
        (fun _ => [("OutdoorTemperature", Value.int 40),
                   ("OutdoorHumidity", Value.int 50)])
      = (.ok [[("DeviceID", Value.int 11), ("Name", Value.str "Upstairs"),
               ("HeatSetpoint", Value.int 70), ("OutdoorTemperature", Value.int 40),
               ("OutdoorHumidity", Value.int 50)]], [1, 2])
    ∧ get_zones_info (fun _ => some []) (fun _ => .null) (fun _ => []) (fun _ => [])
      = (.error "NoZonesFoundError", [1]) :=
  ⟨(get_zones_info_c4
        (fun p => if p = 1 then some [[("DeviceID", Value.int 11)]] else none)
        (fun _ => .str "Upstairs")
        (fun _ => [("HeatSetpoint", Value.int 70)])
        (fun _ => [("OutdoorTemperature", Value.int 40),
                   ("OutdoorHumidity", Value.int 50)])).2.1 2 (by decide) (by decide)
      (fun p h1 h2 => by interval_cases p; rfl) rfl _ rfl,
   (get_zones_info_c4 (fun _ => some []) (fun _ => .null) (fun _ => [])
        (fun _ => [])).1 rfl⟩

/-- C8: each merged record is the zone-list entry with an injected `Name`
field, overlaid by the session-detail blob, overlaid by the two-field
weather mapping: on any key collision the later source wins, and
non-colliding fields pass through verbatim. -/
theorem enrich_merge_c8 (nameOf : Value → Value) (checkOf weatherOf : Value → Dict)
    (zone : Dict) (did : Value)
    (hdid : dlookup zone "DeviceID" = some did)
    (hc : ((checkOf did).map Prod.fst).Nodup)
    (hw : ((weatherOf did).map Prod.fst).Nodup) :
    ∃ merged, enrich nameOf checkOf weatherOf zone = some merged ∧
      ∀ key, dlookup merged key =
        oor (dlookup (weatherOf did) key)
          (oor (dlookup (checkOf did) key)
            (if key = "Name" then some (nameOf did) else dlookup zone key)) := by
  refine ⟨dmerge (dmerge (dinsert zone "Name" (nameOf did)) (checkOf did))
      (weatherOf did), ?_, ?_⟩
  · rw [enrich, hdid]
  · intro key
    rw [dlookup_dmerge (weatherOf did) hw _ key,
        dlookup_dmerge (checkOf did) hc _ key, dlookup_dinsert]

/-- Witness for C8: a sample zone entry, session blob and weather blob
merge with the expected precedence — the weather value wins the
`OutdoorTemperature` collision, the session blob wins the `Shared`
collision, `Name` is injected, and `DeviceID` passes through. -/
theorem enrich_merge_c8_witness :
    ∃ merged,
      enrich (fun _ => .str "Downstairs")
          (fun _ => [("Shared", Value.str "mid"), ("HeatSetpoint", Value.int 68),
                     ("OutdoorTemperature", Value.int 1)])
          (fun _ => [("OutdoorTemperature", Value.int 50), ("OutdoorHumidity", Value.null)])
          [("DeviceID", Value.int 99), ("UI", Value.int 7), ("Shared", Value.str "old")]
        = some merged
      ∧ dlookup merged "OutdoorTemperature" = some (Value.int 50)
      ∧ dlookup merged "Shared" = some (Value.str "mid")
      ∧ dlookup merged "HeatSetpoint" = some (Value.int 68)
      ∧ dlookup merged "Name" = some (Value.str "Downstairs")
      ∧ dlookup merged "DeviceID" = some (Value.int 99)
      ∧ dlookup merged "UI" = some (Value.int 7) := by
  obtain ⟨m, hm, hl⟩ := enrich_merge_c8 (fun _ => .str "Downstairs")
      (fun _ => [("Shared", Value.str "mid"), ("HeatSetpoint", Value.int 68),
                 ("OutdoorTemperature", Value.int 1)])
      (fun _ => [("OutdoorTemperature", Value.int 50), ("OutdoorHumidity", Value.null)])
      [("DeviceID", Value.int 99), ("UI", Value.int 7), ("Shared", Value.str "old")]
      (Value.int 99) rfl (by decide) (by decide)
  exact ⟨m, hm, by rw [hl]; rfl, by rw [hl]; rfl, by rw [hl]; rfl,
         by rw [hl]; rfl, by rw [hl]; rfl, by rw [hl]; rfl⟩

/-! ## C7: `Zone.refresh_zone_info` and the read accessors

A `Zone` view is its settable `device_id` together with its current
record `zone_info`.  `get_zones_info` is abstracted as the fresh zone
list `zones`.  A raised exception leaves the view's record unchanged, so
the embedding returns the (possibly updated) state together with an
optional raised error. -/

/-- A `Zone` view's mutable state. -/
structure ZoneState where
  device_id : Value
  zone_info : Dict
deriving DecidableEq

/-- The `for z in all_zones_info` search by `z["DeviceID"] == device_id`;
a record with no `DeviceID` key raises `KeyError`. -/
def findZone : List Dict → Value → Except String Dict
  | [], _ => .error "ZoneNotFoundError"
  | z :: rest, did =>
      match dlookup z "DeviceID" with
      | none => .error "KeyError"
      | some v => if v = did then .ok z else findZone rest did

/-- The method `Zone.refresh_zone_info`: replace the record with the fresh entry
matching `device_id`, or raise leaving the record unchanged. -/
def refresh_zone_info (zones : List Dict) (st : ZoneState) :
    ZoneState × Option String :=
  match findZone zones st.device_id with
  | .ok z => ({ st with zone_info := z }, none)
  | .error e => (st, some e)

/-- The shape shared by every read accessor of a `Zone`: refresh first,
then project from the (fresh) record. -/
def zone_read_accessor (zones : List Dict) (st : ZoneState)
    (proj : Dict → Value) : ZoneState × Except String Value :=
  match refresh_zone_info zones st with
  | (st2, none) => (st2, .ok (proj st2.zone_info))
  | (st2, some e) => (st2, .error e)

theorem findZone_ok (did : Value) :
    ∀ zones z, findZone zones did = .ok z →
      dlookup z "DeviceID" = some did ∧ z ∈ zones := by
  intro zones
  induction zones with
  | nil => intro z h; cases h
  | cons z0 rest ih =>
    intro z h
    rw [findZone] at h
    cases hd : dlookup z0 "DeviceID" with
    | none => rw [hd] at h; cases h
    | some v =>
      rw [hd] at h
      by_cases hv : v = did
      · simp only [if_pos hv] at h
        cases h
        exact ⟨hv ▸ hd, List.mem_cons_self z0 rest⟩
      · simp only [if_neg hv] at h
        obtain ⟨h1, h2⟩ := ih z h
        exact ⟨h1, List.mem_cons_of_mem z0 h2⟩

theorem findZone_not_found (did : Value) :
    ∀ zones, (∀ z ∈ zones, ∃ v, dlookup z "DeviceID" = some v ∧ v ≠ did) →
      findZone zones did = .error "ZoneNotFoundError" := by
  intro zones
  induction zones with
  | nil => intro _; rfl
  | cons z0 rest ih =>
    intro h
    obtain ⟨v, hv, hne⟩ := h z0 (List.mem_cons_self z0 rest)
    rw [findZone, hv]
    simp only [if_neg hne]
    exact ih (fun z hz => h z (List.mem_cons_of_mem z0 hz))

/-- C7: every read accessor first refreshes, replacing the view's record
with the fresh entry whose `DeviceID` equals the view's `device_id`; a
successful refresh yields a record from the fresh list whose `DeviceID`
field equals the (unchanged) `device_id`; when no fresh entry carries
that id, `ZoneNotFoundError` is raised and the record is unchanged; any
raise leaves the state unchanged, and a successful accessor reads from
the just-refreshed record. -/
theorem refresh_zone_info_c7 (zones : List Dict) (st : ZoneState) :
    (∀ st2, refresh_zone_info zones st = (st2, none) →
        st2.device_id = st.device_id
        ∧ dlookup st2.zone_info "DeviceID" = some st.device_id
        ∧ st2.zone_info ∈ zones)
    ∧ (∀ st2 e, refresh_zone_info zones st = (st2, some e) → st2 = st)
    ∧ ((∀ z ∈ zones, ∃ v, dlookup z "DeviceID" = some v ∧ v ≠ st.device_id) →
        refresh_zone_info zones st = (st, some "ZoneNotFoundError"))
    ∧ (∀ proj st2, refresh_zone_info zones st = (st2, none) →
        zone_read_accessor zones st proj = (st2, .ok (proj st2.zone_info))) := by
  refine ⟨?_, ?_, ?_, ?_⟩
  · intro st2 h
    rw [refresh_zone_info] at h
    cases hf : findZone zones st.device_id with
    | ok z =>
      rw [hf] at h
      obtain ⟨h1, h2⟩ := findZone_ok st.device_id zones z hf
      cases h
      exact ⟨rfl, h1, h2⟩
    | error e => rw [hf] at h; cases h
  · intro st2 e h
    rw [refresh_zone_info] at h
    cases hf : findZone zones st.device_id with
    | ok z => rw [hf] at h; cases h
    | error e2 => rw [hf] at h; cases h; rfl
  · intro h
    rw [refresh_zone_info, findZone_not_found st.device_id zones h]
  · intro proj st2 h
    rw [zone_read_accessor, h]

/-- Witness for C7: refreshing against a fresh list containing the view's
device succeeds and the record's `DeviceID` matches; against a list
without it, `ZoneNotFoundError` is raised and the state is unchanged. -/
theorem refresh_zone_info_c7_witness :
    (refresh_zone_info [[("DeviceID", Value.int 5), ("DispTemp", Value.int 71)]]
        ⟨Value.int 5, []⟩).1.zone_info
      = [("DeviceID", Value.int 5), ("DispTemp", Value.int 71)]
    ∧ refresh_zone_info [[("DeviceID", Value.int 6)]] ⟨Value.int 5, []⟩
        = (⟨Value.int 5, []⟩, some "ZoneNotFoundError")
    ∧ (refresh_zone_info [[("DeviceID", Value.int 5), ("DispTemp", Value.int 71)]]
        ⟨Value.int 5, []⟩).1.device_id = Value.int 5 := by
  have h := (refresh_zone_info_c7 [[("DeviceID", Value.int 6)]] ⟨Value.int 5, []⟩).2.2.1
    (by intro z hz; simp at hz; subst hz; exact ⟨Value.int 6, rfl, by decide⟩)
  exact ⟨rfl, h, rfl⟩

/-! ## C2 / C10: `PyHTCC.submit_raw_control_changes`

The portal's JSON reply to the POST becomes the oracle `respond`, a
function of the posted payload.  The embedding returns the result
together with the list of payloads actually POSTed, so "no HTTP request
was issued" is the statement that this trace is empty. -/

/-- The raised exception of `submit_raw_control_changes`. -/
inductive SubmitErr where
  | keyError (k : String)
  | keyErrorSuccess
  | valueError
deriving DecidableEq, Repr

/-- The fixed nine-key template, defaulted to `None` except `DeviceID`. -/
def controlTemplate (device_id : Value) : Dict :=
  [("CoolNextPeriod", .null), ("CoolSetpoint", .null), ("DeviceID", device_id),
   ("FanMode", .null), ("HeatNextPeriod", .null), ("HeatSetpoint", .null),
   ("StatusCool", .null), ("StatusHeat", .null), ("SystemSwitch", .null)]

/-- The `for k, v in other_data.items()` overlay loop: overwrite valid
keys in order, raise `KeyError` (naming the key) at the first key outside
the template. -/
def applyUpdates (data : Dict) : List (String × Value) → Except String Dict
  | [] => .ok data
  | (k, v) :: rest =>
      if (dlookup data k).isSome then applyUpdates (dinsert data k v) rest
      else .error k

/-- The method `PyHTCC.submit_raw_control_changes device_id other_data`, with the
response oracle `respond`; also returns the POSTed payloads. -/
def submit_raw_control_changes (device_id : Value)
    (other_data : List (String × Value)) (respond : Dict → Dict) :
    Except SubmitErr Unit × List Dict :=
  match applyUpdates (controlTemplate device_id) other_data with
  | .error k => (.error (.keyError k), [])
  | .ok data =>
      match dlookup (respond data) "success" with
      | none => (.error .keyErrorSuccess, [data])
      | some v => if v = .int 1 then (.ok (), [data]) else (.error .valueError, [data])

theorem applyUpdates_ok :
    ∀ (upd : List (String × Value)) (data : Dict),
      (∀ k ∈ upd.map Prod.fst, (dlookup data k).isSome = true) →
      applyUpdates data upd = .ok (dmerge data upd) := by
  intro upd
  induction upd with
  | nil => intro data _; rfl
  | cons kv rest ih =>
    intro data h
    obtain ⟨k, v⟩ := kv
    have hk := h k (by simp)
    rw [applyUpdates, if_pos hk]
    have hrest : ∀ k2 ∈ rest.map Prod.fst, (dlookup (dinsert data k v) k2).isSome = true := by
      intro k2 hk2
      rw [dlookup_dinsert]
      by_cases he : k2 = k
      · simp [he]
      · simp only [if_neg he]
        exact h k2 (by simp [hk2])
    exact ih (dinsert data k v) hrest

theorem applyUpdates_err :
    ∀ (upd : List (String × Value)) (data : Dict),
      (∃ k, k ∈ upd.map Prod.fst ∧ dlookup data k = none) →
      ∃ k2, applyUpdates data upd = .error k2 ∧ dlookup data k2 = none := by
  intro upd
  induction upd with
  | nil => intro data ⟨k, hk, _⟩; simp at hk
  | cons kv rest ih =>
    intro data ⟨k, hk, hnone⟩
    obtain ⟨k0, v⟩ := kv
    by_cases h0 : (dlookup data k0).isSome = true
    · rw [applyUpdates, if_pos h0]
      have hkne : k ≠ k0 := by
        intro he; subst he
        rw [hnone] at h0; cases h0
      have hk2 : k ∈ rest.map Prod.fst := by
        simp at hk
        rcases hk with h | h
        · exact absurd h hkne
        · simpa using h
      obtain ⟨k2, ha, hb⟩ := ih (dinsert data k0 v)
        ⟨k, hk2, by rw [dlookup_dinsert, if_neg hkne]; exact hnone⟩
      refine ⟨k2, ha, ?_⟩
      rw [dlookup_dinsert] at hb
      by_cases he : k2 = k0
      · rw [if_pos he] at hb; cases hb
      · rwa [if_neg he] at hb
    · rw [applyUpdates, if_neg h0]
      exact ⟨k0, rfl, by cases hd : dlookup data k0 with
        | none => rfl
        | some w => rw [hd] at h0; simp at h0⟩

/-- C2: `submit_raw_control_changes` starts from the nine-key template
(all `None` but `DeviceID`), overlays the caller's pairs, raises
`KeyError` for a key outside the set, POSTs the merged mapping exactly
once with unspecified fields still `null` and `DeviceID` set, raises
`ValueError` unless the response's `success` field equals 1, and returns
normally when it does. -/
theorem submit_raw_control_changes_c2 (device_id : Value)
    (other_data : List (String × Value)) (respond : Dict → Dict) :
    ((∀ k ∈ other_data.map Prod.fst,
        (dlookup (controlTemplate device_id) k).isSome = true) →
      (other_data.map Prod.fst).Nodup →
      ∃ data,
        (submit_raw_control_changes device_id other_data respond).2 = [data]
        ∧ (∀ key, dlookup data key =
            oor (dlookup other_data key) (dlookup (controlTemplate device_id) key))
        ∧ (dlookup (respond data) "success" = some (.int 1) →
            (submit_raw_control_changes device_id other_data respond).1 = .ok ())
        ∧ (∀ v, dlookup (respond data) "success" = some v → v ≠ .int 1 →
            (submit_raw_control_changes device_id other_data respond).1
              = .error .valueError))
    ∧ ((∃ k, k ∈ other_data.map Prod.fst
          ∧ dlookup (controlTemplate device_id) k = none) →
        ∃ k2, submit_raw_control_changes device_id other_data respond
          = (.error (.keyError k2), [])) := by
  constructor
  · intro hvalid hnodup
    have hok := applyUpdates_ok other_data (controlTemplate device_id) hvalid
    refine ⟨dmerge (controlTemplate device_id) other_data, ?_, ?_, ?_, ?_⟩
    · rw [submit_raw_control_changes, hok]
      cases hs : dlookup (respond (dmerge (controlTemplate device_id) other_data)) "success" with
      | none => simp [hs]
      | some v => by_cases hv : v = .int 1 <;> simp [hs, hv]
    · intro key
      exact dlookup_dmerge other_data hnodup (controlTemplate device_id) key
    · intro hs
      rw [submit_raw_control_changes, hok]
      simp [hs]
    · intro v hs hv
      rw [submit_raw_control_changes, hok]
      simp [hs, hv]
  · intro hbad
    obtain ⟨k2, ha, _⟩ := applyUpdates_err other_data (controlTemplate device_id) hbad
    rw [submit_raw_control_changes, ha]
    exact ⟨k2, rfl⟩

/-- Witness for C2: a valid update posts once with unspecified fields
null, succeeds on `success = 1` and fails on `success = 0`; an invalid
key raises `KeyError` with nothing posted. -/
theorem submit_raw_control_changes_c2_witness :
    (∃ data,
      (submit_raw_control_changes (Value.int 9)
          [("HeatSetpoint", Value.int 72)]
          (fun _ => [("success", Value.int 1)])).2 = [data]
      ∧ dlookup data "CoolSetpoint" = some Value.null
      ∧ dlookup data "HeatSetpoint" = some (Value.int 72)
      ∧ dlookup data "DeviceID" = some (Value.int 9)
      ∧ (submit_raw_control_changes (Value.int 9)
          [("HeatSetpoint", Value.int 72)]
          (fun _ => [("success", Value.int 1)])).1 = .ok ())
    ∧ (∃ k2, submit_raw_control_changes (Value.int 9)
        [("Bogus", Value.int 1)] (fun _ => [("success", Value.int 1)])
        = (.error (.keyError k2), [])) := by
  constructor
  · obtain ⟨data, h1, h2, h3, _⟩ :=
      (submit_raw_control_changes_c2 (Value.int 9) [("HeatSetpoint", Value.int 72)]
        (fun _ => [("success", Value.int 1)])).1
        (by decide) (by decide)
    refine ⟨data, h1, ?_, ?_, ?_, ?_⟩
    · rw [h2 "CoolSetpoint"]; rfl
    · rw [h2 "HeatSetpoint"]; rfl
    · rw [h2 "DeviceID"]; rfl
    · exact h3 rfl
  · exact (submit_raw_control_changes_c2 (Value.int 9) [("Bogus", Value.int 1)]
      (fun _ => [("success", Value.int 1)])).2 ⟨"Bogus", by decide, by decide⟩

/-- C10: when the updates mapping contains any key outside the nine-key
template, `KeyError` is raised before any HTTP request: the POST trace is
empty — no control change reaches the portal — no matter how many valid
keys the mapping also contains. -/
theorem submit_no_post_on_bad_key_c10 (device_id : Value)
    (other_data : List (String × Value)) (respond : Dict → Dict)
    (hbad : ∃ k, k ∈ other_data.map Prod.fst
      ∧ dlookup (controlTemplate device_id) k = none) :
    (submit_raw_control_changes device_id other_data respond).2 = []
    ∧ ∃ k2, (submit_raw_control_changes device_id other_data respond).1
        = .error (.keyError k2) := by
  obtain ⟨k2, ha, _⟩ := applyUpdates_err other_data (controlTemplate device_id) hbad
  rw [submit_raw_control_changes, ha]
  exact ⟨rfl, k2, rfl⟩

/-- Witness for C10: an update mixing two valid keys with a bogus key
posts nothing and raises `KeyError`. -/
theorem submit_no_post_on_bad_key_c10_witness :
    (submit_raw_control_changes (Value.int 9)
        [("HeatSetpoint", Value.int 72), ("Bogus", Value.int 1),
         ("SystemSwitch", Value.int 1)]
        (fun _ => [("success", Value.int 1)])).2 = []
    ∧ ∃ k2, (submit_raw_control_changes (Value.int 9)
        [("HeatSetpoint", Value.int 72), ("Bogus", Value.int 1),
         ("SystemSwitch", Value.int 1)]
        (fun _ => [("success", Value.int 1)])).1 = .error (.keyError k2) :=
  submit_no_post_on_bad_key_c10 (Value.int 9)
    [("HeatSetpoint", Value.int 72), ("Bogus", Value.int 1),
     ("SystemSwitch", Value.int 1)]
    (fun _ => [("success", Value.int 1)])
    ⟨"Bogus", by decide, by decide⟩

/-! ## C9: `PyHTCC._get_outdoor_weather_info_for_zone`

Each field is `int(float(text.split(marker)[1].split(")", 1)[0].strip()))`
under a bare `except:` that yields `None`.  `int(float(s))` is modelled
exactly for finite decimal literals (optional sign, digits, fraction,
exponent, PEP-515 underscores): the literal's exact rational value is
truncated toward zero.  Strings `float` accepts but `int` then rejects
(`inf`, `nan`) land in the `none` case, as the bare `except` catches the
`OverflowError`/`ValueError` either way. -/

/-- Optional leading sign: returns (is-negative, remainder). -/
def readSign : List Char → Bool × List Char
  | '-' :: t => (true, t)
  | '+' :: t => (false, t)
  | s => (false, s)

/-- PEP 515: every underscore must sit directly between two digits.
`p` is the previous character (initially a non-digit sentinel). -/
def uOk (p : Char) : List Char → Bool
  | [] => true
  | c :: t =>
      if c = '_' then
        p.isDigit && (match t with | c2 :: _ => c2.isDigit | [] => false) && uOk c t
      else uOk c t

/-- The optional exponent of a float literal; the remainder must be
empty.  Returns (negative, mantissa digits value, fraction length,
exponent). -/
def parseExpPart (neg : Bool) (num f : Nat) : List Char → Option (Bool × Nat × Nat × Int)
  | [] => some (neg, num, f, 0)
  | c :: t =>
      if c = 'e' ∨ c = 'E' then
        let st := readSign t
        let ed := st.2.takeWhile Char.isDigit
        let t2 := st.2.dropWhile Char.isDigit
        if ed.isEmpty ∨ ¬ t2.isEmpty then none
        else some (neg, num, f,
          if st.1 then -((digitsToNat ed : Nat) : Int) else ((digitsToNat ed : Nat) : Int))
      else none

/-- A float literal with its underscores already removed: sign, integer
digits, optional `.` and fraction digits, optional exponent. -/
def parseFloatParts (s : List Char) : Option (Bool × Nat × Nat × Int) :=
  let sg := readSign s
  let ip := sg.2.takeWhile Char.isDigit
  let s2 := sg.2.dropWhile Char.isDigit
  match s2 with
  | '.' :: s3 =>
      let fp := s3.takeWhile Char.isDigit
      let s4 := s3.dropWhile Char.isDigit
      if ip.isEmpty ∧ fp.isEmpty then none
      else parseExpPart sg.1 (digitsToNat (ip ++ fp)) fp.length s4
  | _ =>
      if ip.isEmpty then none
      else parseExpPart sg.1 (digitsToNat ip) 0 s2

/-- Magnitude of the truncation toward zero of `num · 10^(e-f)`. -/
def decTruncMag (num f : Nat) (e : Int) : Nat :=
  if 0 ≤ e then num * 10 ^ e.toNat / 10 ^ f
  else num / 10 ^ (f + (-e).toNat)

/-- Python `int(float(s))` for an ASCII string holding a finite decimal literal;
`none` models a raised `ValueError` (or `OverflowError`). -/
def pyFloatInt (s : List Char) : Option Int :=
  let t := pyStrip s
  if uOk ' ' t then
    match parseFloatParts (t.filter (fun c => c != '_')) with
    | some (neg, num, f, e) =>
        some (if neg then -((decTruncMag num f e : Nat) : Int)
              else ((decTruncMag num f e : Nat) : Int))
    | none => none
  else none

/-- Substring marker of the outdoor-temperature assignment. -/
def outdoorTempMarker : List Char := "Control.Model.Property.outdoorTemp,".toList

/-- Substring marker of the outdoor-humidity assignment. -/
def outdoorHumidityMarker : List Char :=
  "Control.Model.Property.outdoorHumidity,".toList

/-- One field of the weather extraction:
`int(float(text.split(marker)[1].split(")", 1)[0].strip()))`, with every
failure (marker absent, parse failure) mapped to `none` by the bare
`except`. -/
def weatherField (marker text : List Char) : Option Int :=
  match splitFirst marker text with
  | none => none
  | some p =>
      let piece :=
        match splitFirst marker p.2 with
        | some q => q.1
        | none => p.2
      pyFloatInt (pyStrip (pySplitHead [')'] piece))

/-- Conversion of `None` to JSON `null` in the returned mapping. -/
def optIntVal : Option Int → Value
  | some n => .int n
  | none => .null

/-- The method `PyHTCC._get_outdoor_weather_info_for_zone`, over the detail page's
body text. -/
def get_outdoor_weather_info_for_zone (text : List Char) : Dict :=
  [("OutdoorTemperature", optIntVal (weatherField outdoorTempMarker text)),
   ("OutdoorHumidity", optIntVal (weatherField outdoorHumidityMarker text))]

theorem no_char_occurrence (x : Char) (l rest : List Char)
    (h : ∀ c ∈ l, c ≠ x) :
    ∀ i, i < l.length → ([x]).isPrefixOf ((l ++ rest).drop i) = false := by
  intro i hi
  rw [List.drop_append_of_le_length (Nat.le_of_lt hi),
      List.drop_eq_getElem_cons hi]
  exact isPrefixOf_cons_eq_false_of_head_ne x l[i] [] _
    (Ne.symm (h _ (List.getElem_mem hi)))

theorem pySplitHead_append_single (x : Char) (l rest : List Char)
    (h : ∀ c ∈ l, c ≠ x) :
    pySplitHead [x] (l ++ (x :: rest)) = l := by
  have h1 : splitFirst [x] (x :: rest) = some ([], rest) :=
    splitFirst_sep_append [x] rest (by simp)
  have h2 := splitFirst_append_left [x] l (x :: rest)
    (no_char_occurrence x l (x :: rest) h)
  rw [pySplitHead, h2, h1]
  simp

theorem weatherField_found (marker pre mid rest : List Char)
    (hm : marker ≠ [])
    (hpre : ∀ i, i < pre.length →
      marker.isPrefixOf ((pre ++ (marker ++ (mid ++ (')' :: rest)))).drop i) = false)
    (hno2 : containsSub marker (mid ++ (')' :: rest)) = false)
    (hmid : ∀ c ∈ mid, c ≠ ')') :
    weatherField marker (pre ++ (marker ++ (mid ++ (')' :: rest))))
      = pyFloatInt (pyStrip mid) := by
  have h0 : splitFirst marker (marker ++ (mid ++ (')' :: rest)))
      = some ([], mid ++ (')' :: rest)) :=
    splitFirst_sep_append marker _ hm
  have h1 : splitFirst marker (pre ++ (marker ++ (mid ++ (')' :: rest))))
      = some (pre, mid ++ (')' :: rest)) := by
    rw [splitFirst_append_left marker pre _ hpre, h0]
    simp
  have h2 : splitFirst marker (mid ++ (')' :: rest)) = none :=
    splitFirst_eq_none_of_not_contains _ _ hno2
  rw [weatherField, h1]
  simp only [h2]
  rw [pySplitHead_append_single ')' mid rest hmid]

/-- C9: the two outdoor-weather fields are computed independently, each
as the numeric literal after its marker (up to the next `)`) parsed as a
float and truncated to an integer; a field whose marker is absent or
whose text fails to parse is `None`, with no exception raised (the
functions are total) and no effect on the other field. -/
theorem outdoor_weather_c9 :
    (∀ text : List Char,
      get_outdoor_weather_info_for_zone text =
        [("OutdoorTemperature", optIntVal (weatherField outdoorTempMarker text)),
         ("OutdoorHumidity", optIntVal (weatherField outdoorHumidityMarker text))])
    ∧ (∀ marker text : List Char, containsSub marker text = false →
        weatherField marker text = none)
    ∧ (∀ marker pre mid rest : List Char, marker ≠ [] →
        (∀ i, i < pre.length →
          marker.isPrefixOf
            ((pre ++ (marker ++ (mid ++ (')' :: rest)))).drop i) = false) →
        containsSub marker (mid ++ (')' :: rest)) = false →
        (∀ c ∈ mid, c ≠ ')') →
        weatherField marker (pre ++ (marker ++ (mid ++ (')' :: rest))))
          = pyFloatInt (pyStrip mid)) := by
  refine ⟨fun text => rfl, ?_, weatherField_found⟩
  intro marker text h
  rw [weatherField, splitFirst_eq_none_of_not_contains marker text h]

/-- Witness for C9: in a page where the temperature reads `47.2` and the
humidity text is unparseable, the mapping holds `47` and `null`; in a
page with neither marker both fields are `null`. -/
theorem outdoor_weather_c9_witness :
    get_outdoor_weather_info_for_zone
        ("ui(Control.Model.Property.outdoorTemp, 47.2) x Control.Model.Property.outdoorHumidity, oops) y".toList)
      = [("OutdoorTemperature", Value.int 47), ("OutdoorHumidity", Value.null)]
    ∧ weatherField outdoorTempMarker ("no markers here".toList) = none := by
  constructor
  · rw [outdoor_weather_c9.1]
    rfl
  · exact outdoor_weather_c9.2.1 outdoorTempMarker ("no markers here".toList)
      (by decide)

end PyHTCC
